import Mathlib

/-!
Verification of the Automerge-over-WebSocket editor synchronization client
(`frontend/src/editor/automerge_websocket_editor.ts`).

The CRDT engine (Automerge) is an external collaborator; it is modelled as an
abstract record of the operations the client calls (`decodeChange`,
`getActorId`, `applyChanges`, `load`, `getLastLocalChange`), each fallible
operation returning `Option` (with `none` standing for a thrown exception).
Bytes are modelled as `List Nat`.

The client state tracked by the embedding is the held document, the number of
`onInitialSyncComplete` invocations, and the number of `editor.setDoc` calls
(the document-changed re-render notifications issued by the message handler).
-/

/-- The CRDT engine interface consumed by the client, as used in the source:
`Automerge.init`, `Automerge.decodeChange(msg).actor`, `Automerge.getActorId`,
`Automerge.applyChanges`, `Automerge.load`, `Automerge.getLastLocalChange`.
Fallible operations (decoding/applying/loading corrupt bytes throws in JS)
return `Option`. -/
structure Engine (Doc Change Actor : Type) where
  init : Doc
  decodeChange : List Nat → Option Change
  actorOf : Change → Actor
  getActorId : Doc → Actor
  applyChanges : Doc → List (List Nat) → Option Doc
  load : List Nat → Option Doc
  getLastLocalChange : Doc → Option (List Nat)

/-- The observable client state: the held document (`editor.doc`), the number
of `onInitialSyncComplete` callback invocations, and the number of
`editor.setDoc` calls issued by the inbound message handler. -/
structure ClientState (Doc : Type) where
  doc : Doc
  syncCompleteCount : Nat
  setDocCalls : Nat
deriving DecidableEq

/-- The inbound decode step of the message codec, as in `onMessage`:
`msg_type = msg_data[0]` (which is `undefined`, i.e. `none`, on an empty
message) and `msg = msg_data.slice(1)`. -/
def decodeFrame (bs : List Nat) : Option Nat × List Nat :=
  (bs.head?, bs.tail)

/-- Modelled from the spec: the encode half of the message codec lives on the
server side of this repository, which is not under src/. Per the spec,
`encode(tag, payload)` produces a frame whose first byte is the numeric tag
and whose remaining bytes are the payload, unmodified. -/
def encodeFrame (tag : Nat) (payload : List Nat) : List Nat :=
  tag :: payload

/-- The numeric tags of `MessageSyncType`: `Change = 1`,
`ChangeBacklogComplete = 2`, `FullDoc = 3`. -/
def MessageSyncTypeChange : Nat := 1

def MessageSyncTypeChangeBacklogComplete : Nat := 2

def MessageSyncTypeFullDoc : Nat := 3

/-- The inbound message handler `onMessage`, translated branch by branch from
the source. `none` models a thrown exception (decode, apply or load failing
on corrupt bytes); `some` returns the updated client state. On tag `Change`
from the local actor the handler returns early; otherwise it applies the one
change. On `ChangeBacklogComplete` it invokes `onInitialSyncComplete`. On
`FullDoc` it replaces the document with `Automerge.load msg`. Any other tag
(including a missing tag byte on an empty message) matches no branch. -/
def onMessage {Doc Change Actor : Type} [DecidableEq Actor]
    (E : Engine Doc Change Actor) (msg_data : List Nat)
    (s : ClientState Doc) : Option (ClientState Doc) :=
  let msg_type := (decodeFrame msg_data).1
  let msg := (decodeFrame msg_data).2
  if msg_type = some MessageSyncTypeChange then
    match E.decodeChange msg with
    | none => none
    | some c =>
      if E.actorOf c = E.getActorId s.doc then
        some s
      else
        match E.applyChanges s.doc [msg] with
        | none => none
        | some newDoc =>
          some { s with doc := newDoc, setDocCalls := s.setDocCalls + 1 }
  else if msg_type = some MessageSyncTypeChangeBacklogComplete then
    some { s with syncCompleteCount := s.syncCompleteCount + 1 }
  else if msg_type = some MessageSyncTypeFullDoc then
    match E.load msg with
    | none => none
    | some newDoc =>
      some { s with doc := newDoc, setDocCalls := s.setDocCalls + 1 }
  else
    some s

/-- The outbound change emitter `editor.onDocChange`: fetch
`Automerge.getLastLocalChange(newDoc)`; if a change exists and the
`ConnectionHandle` (`wsRef.current`) is live, send the change bytes on the
channel, otherwise send nothing. The returned list is the list of payloads
passed to `ws.send` (empty or a singleton); the function is total, so the
emitter cannot throw. -/
def onDocChange {Doc Change Actor : Type} (E : Engine Doc Change Actor)
    (wsRef : Option Unit) (newDoc : Doc) : List (List Nat) :=
  match E.getLastLocalChange newDoc, wsRef with
  | some lastChange, some _ => [lastChange]
  | _, _ => []

/-- One event delivered on the session event loop: either an inbound wire
message or a local document-changed notification carrying the new document. -/
inductive Event (Doc : Type) where
  | inbound (msg_data : List Nat)
  | localEdit (newDoc : Doc)

/-- One event-loop step. An exception escaping the inbound handler rejects
that handler invocation only; the held state is unchanged and the session
continues. A local edit replaces the held document (the editor surface owns
that mutation) and touches neither counter. -/
def stepEvent {Doc Change Actor : Type} [DecidableEq Actor]
    (E : Engine Doc Change Actor) (s : ClientState Doc) :
    Event Doc → ClientState Doc
  | Event.inbound m =>
    match onMessage E m s with
    | some s2 => s2
    | none => s
  | Event.localEdit d => { s with doc := d }

/-- Run a session: fold the event list through the event loop. -/
def runSession {Doc Change Actor : Type} [DecidableEq Actor]
    (E : Engine Doc Change Actor) (evs : List (Event Doc))
    (s : ClientState Doc) : ClientState Doc :=
  evs.foldl (stepEvent E) s

/-- The initial session state: a freshly initialized empty document, callback
never invoked, no `setDoc` calls yet. -/
def initState {Doc Change Actor : Type} (E : Engine Doc Change Actor) :
    ClientState Doc :=
  ⟨E.init, 0, 0⟩

/-- Whether an event is an inbound frame whose tag byte is
`ChangeBacklogComplete`. -/
def isBacklogComplete {Doc : Type} : Event Doc → Bool
  | Event.inbound m => m.head? = some MessageSyncTypeChangeBacklogComplete
  | Event.localEdit _ => false

/-- The session-teardown cleanup returned from `useEffect`:
`wsRef.current = null` then `ws.close()`, modelled as two atomic operations
executed in source order. -/
inductive TearOp where
  | clearHandle
  | closeChannel

/-- The adapter-owned connection state: the `ConnectionHandle`
(`wsRef.current`) and whether the underlying channel is still open. -/
structure Session where
  wsRef : Option Unit
  channelOpen : Bool
deriving DecidableEq

def execTearOp : TearOp → Session → Session
  | TearOp.clearHandle, s => { s with wsRef := none }
  | TearOp.closeChannel, s => { s with channelOpen := false }

def execTearOps (ops : List TearOp) (s : Session) : Session :=
  ops.foldl (fun st op => execTearOp op st) s

/-- The teardown sequence in source order: clear the handle, then close. -/
def teardownOps : List TearOp :=
  [TearOp.clearHandle, TearOp.closeChannel]

/-- A concrete executable engine instance used to evaluate the client code on
concrete inputs: documents, changes and actors are all naturals, a change's
bytes are its actor id in one byte, a document's own actor id is the document
value. -/
def toyEngine : Engine Nat Nat Nat where
  init := 0
  decodeChange := fun bs => bs.head?
  actorOf := fun c => c
  getActorId := fun d => d
  applyChanges := fun d cs => some (d + cs.length)
  load := fun bs => some bs.length
  getLastLocalChange := fun d => some [d]

/-! ## Helper lemmas -/

/-- With no live `ConnectionHandle` the emitter sends nothing. -/
theorem onDocChange_none {Doc Change Actor : Type} (E : Engine Doc Change Actor)
    (d : Doc) : onDocChange E none d = [] := by
  cases h : E.getLastLocalChange d <;> simp [onDocChange, h]

/-! ## Claims -/

/-- Claim C1: an inbound tag-1 (Change) frame whose payload decodes to a
change authored by the current document's own actor id is dropped before
merging: the handler returns the state unchanged (same document, no
`setDoc` call, no callback invocation) and does not throw. -/
theorem own_change_dropped {Doc Change Actor : Type} [DecidableEq Actor]
    (E : Engine Doc Change Actor) (s : ClientState Doc)
    (payload : List Nat) (c : Change)
    (h1 : E.decodeChange payload = some c)
    (h2 : E.actorOf c = E.getActorId s.doc) :
    onMessage E (MessageSyncTypeChange :: payload) s = some s := by
  simp [onMessage, decodeFrame, MessageSyncTypeChange, h1, h2]

/-- Witness for C1 at a concrete input: document with actor id 7 receives a
Change frame whose payload decodes to author 7; the state is unchanged. -/
theorem own_change_dropped_witness :
    onMessage toyEngine [1, 7] ⟨7, 2, 3⟩ = some ⟨7, 2, 3⟩ :=
  own_change_dropped toyEngine ⟨7, 2, 3⟩ [7] 7 rfl rfl

/-- Claim C5: an inbound tag-1 (Change) frame whose payload decodes to a
change authored by a different actor is applied via the engine merge
operation `applyChanges doc [msg]` (exactly that one change), the held
document is replaced by the result and a `setDoc` notification is issued;
this holds for every prior state and the `onInitialSyncComplete` counter is
unchanged (so the Uninitialized/Syncing/Synced state is untouched). -/
theorem remote_change_applied {Doc Change Actor : Type} [DecidableEq Actor]
    (E : Engine Doc Change Actor) (s : ClientState Doc)
    (payload : List Nat) (c : Change) (d : Doc)
    (h1 : E.decodeChange payload = some c)
    (h2 : E.actorOf c ≠ E.getActorId s.doc)
    (h3 : E.applyChanges s.doc [payload] = some d) :
    onMessage E (MessageSyncTypeChange :: payload) s =
      some { s with doc := d, setDocCalls := s.setDocCalls + 1 } := by
  simp [onMessage, decodeFrame, MessageSyncTypeChange, h1, h2, h3]

/-- Witness for C5 at a concrete input: document with actor id 7 receives a
Change frame authored by 9; the merge result replaces the document, the
callback counter stays 0, `setDoc` is called once. -/
theorem remote_change_applied_witness :
    onMessage toyEngine [1, 9] ⟨7, 0, 0⟩ = some ⟨8, 0, 1⟩ :=
  remote_change_applied toyEngine ⟨7, 0, 0⟩ [9] 9 8 rfl (by decide) rfl

/-- Claim C4: an inbound tag-3 (FullDoc) frame replaces the held document
wholesale with the document loaded from the snapshot payload, for every
prior state (any document, any sync state), discarding all prior local
document state; a `setDoc` notification is issued. -/
theorem fulldoc_replaces_document {Doc Change Actor : Type} [DecidableEq Actor]
    (E : Engine Doc Change Actor) (s : ClientState Doc)
    (payload : List Nat) (d : Doc)
    (h : E.load payload = some d) :
    onMessage E (MessageSyncTypeFullDoc :: payload) s =
      some { s with doc := d, setDocCalls := s.setDocCalls + 1 } := by
  simp [onMessage, decodeFrame, MessageSyncTypeChange,
    MessageSyncTypeChangeBacklogComplete, MessageSyncTypeFullDoc, h]

/-- Witness for C4 at a concrete input: whatever document was held (here 7,
with pending local state), a FullDoc frame with a two-byte snapshot replaces
it by the loaded document. -/
theorem fulldoc_replaces_document_witness :
    onMessage toyEngine [3, 4, 4] ⟨7, 1, 5⟩ = some ⟨2, 1, 6⟩ :=
  fulldoc_replaces_document toyEngine ⟨7, 1, 5⟩ [4, 4] 2 rfl

/-- Claim C6: an inbound frame with a tag outside {1,2,3} and arbitrary
payload matches no branch: the handler returns the state unchanged (document,
callback counter and `setDoc` counter all untouched) and does not throw. -/
theorem unknown_tag_ignored {Doc Change Actor : Type} [DecidableEq Actor]
    (E : Engine Doc Change Actor) (s : ClientState Doc)
    (t : Nat) (payload : List Nat)
    (h1 : t ≠ MessageSyncTypeChange)
    (h2 : t ≠ MessageSyncTypeChangeBacklogComplete)
    (h3 : t ≠ MessageSyncTypeFullDoc) :
    onMessage E (t :: payload) s = some s := by
  simp [onMessage, decodeFrame, h1, h2, h3]

/-- Witness for C6 at a concrete input: tag 99 with an arbitrary payload
leaves the state unchanged. -/
theorem unknown_tag_ignored_witness :
    onMessage toyEngine [99, 1, 2, 3] ⟨5, 1, 1⟩ = some ⟨5, 1, 1⟩ :=
  unknown_tag_ignored toyEngine ⟨5, 1, 1⟩ 99 [1, 2, 3]
    (by decide) (by decide) (by decide)

/-- Claim C10: a zero-length inbound message has no tag byte
(`msg_data[0]` is `undefined`), so no branch matches: the handler does not
throw, and the document, the sync state and the callback counter are all
unchanged. -/
theorem empty_message_ignored {Doc Change Actor : Type} [DecidableEq Actor]
    (E : Engine Doc Change Actor) (s : ClientState Doc) :
    onMessage E [] s = some s := by
  simp [onMessage, decodeFrame]

/-- Claim C7: when the `ConnectionHandle` is absent, or the engine reports no
most recent local change, the emitter sends nothing; it is a total function
(cannot throw) and holds no queue, so the drop is silent and permanent. -/
theorem no_connection_send_drops {Doc Change Actor : Type}
    (E : Engine Doc Change Actor) (ws : Option Unit) (d : Doc)
    (h : ws = none ∨ E.getLastLocalChange d = none) :
    onDocChange E ws d = [] := by
  rcases h with h | h
  · subst h
    exact onDocChange_none E d
  · cases ws <;> simp [onDocChange, h]

/-- Witness for C7 at a concrete input: with the handle absent, a local edit
notification on document 3 sends nothing. -/
theorem no_connection_send_drops_witness :
    onDocChange toyEngine none 3 = [] :=
  no_connection_send_drops toyEngine none 3 (Or.inl rfl)

/-- Claim C8: the inbound decoder reads byte 0 as the tag and the remaining
bytes, unmodified, as the payload, so decoding an encoded frame recovers the
identical (tag, payload) pair for each protocol tag and every payload. -/
theorem decode_encode_roundtrip (t : Nat) (p : List Nat)
    (h : t = MessageSyncTypeChange ∨ t = MessageSyncTypeChangeBacklogComplete ∨
      t = MessageSyncTypeFullDoc) :
    decodeFrame (encodeFrame t p) = (some t, p) :=
  rfl

/-- Witness for C8 at a concrete input: tag 1 with payload [5, 6]. -/
theorem decode_encode_roundtrip_witness :
    decodeFrame (encodeFrame 1 [5, 6]) = (some 1, [5, 6]) :=
  decode_encode_roundtrip 1 [5, 6] (Or.inl rfl)

/-! ## Session-level counting of the sync-complete callback -/

/-- If the handler completes without throwing, the number of
`onInitialSyncComplete` invocations grows by one exactly when the frame's tag
byte is `ChangeBacklogComplete`, and is unchanged otherwise. -/
theorem onMessage_syncCompleteCount {Doc Change Actor : Type}
    [DecidableEq Actor] (E : Engine Doc Change Actor) (m : List Nat)
    (s s2 : ClientState Doc) (h : onMessage E m s = some s2) :
    s2.syncCompleteCount = s.syncCompleteCount +
      (if m.head? = some MessageSyncTypeChangeBacklogComplete then 1
        else 0) := by
  simp only [onMessage, decodeFrame] at h
  split at h
  · rename_i htag
    split at h
    · exact absurd h (by simp)
    · split at h
      · cases h
        simp [htag, MessageSyncTypeChange,
          MessageSyncTypeChangeBacklogComplete]
      · split at h
        · exact absurd h (by simp)
        · cases h
          simp [htag, MessageSyncTypeChange,
            MessageSyncTypeChangeBacklogComplete]
  · split at h
    · rename_i htag
      cases h
      simp [htag]
    · split at h
      · rename_i htag
        split at h
        · exact absurd h (by simp)
        · cases h
          simp [htag, MessageSyncTypeFullDoc,
            MessageSyncTypeChangeBacklogComplete]
      · rename_i hn1 hn2 hn3
        cases h
        simp [hn2]

/-- The handler can only throw inside the tag-1 or tag-3 branches, never on a
`ChangeBacklogComplete` frame. -/
theorem onMessage_none_not_backlog {Doc Change Actor : Type}
    [DecidableEq Actor] (E : Engine Doc Change Actor) (m : List Nat)
    (s : ClientState Doc) (h : onMessage E m s = none) :
    ¬ m.head? = some MessageSyncTypeChangeBacklogComplete := by
  intro hb
  simp [onMessage, decodeFrame, hb, MessageSyncTypeChange,
    MessageSyncTypeChangeBacklogComplete] at h

/-- One event-loop step grows the callback counter by one exactly on a
backlog-complete frame, whether or not the handler throws, and never on a
local edit or any other frame. -/
theorem stepEvent_syncCompleteCount {Doc Change Actor : Type}
    [DecidableEq Actor] (E : Engine Doc Change Actor) (s : ClientState Doc)
    (e : Event Doc) :
    (stepEvent E s e).syncCompleteCount =
      s.syncCompleteCount + (if isBacklogComplete e then 1 else 0) := by
  cases e with
  | localEdit d => simp [stepEvent, isBacklogComplete]
  | inbound m =>
    simp only [stepEvent]
    cases hm : onMessage E m s with
    | none =>
      have hnb := onMessage_none_not_backlog E m s hm
      simp [isBacklogComplete, hnb]
    | some s2 =>
      have hc := onMessage_syncCompleteCount E m s s2 hm
      simp [isBacklogComplete, hc]

/-- Over a whole session, the callback counter grows by exactly the number of
backlog-complete frames among the events. -/
theorem runSession_syncCompleteCount {Doc Change Actor : Type}
    [DecidableEq Actor] (E : Engine Doc Change Actor)
    (evs : List (Event Doc)) (s : ClientState Doc) :
    (runSession E evs s).syncCompleteCount =
      s.syncCompleteCount + evs.countP isBacklogComplete := by
  induction evs generalizing s with
  | nil => simp [runSession]
  | cons e evs ih =>
    have hstep : runSession E (e :: evs) s =
        runSession E evs (stepEvent E s e) := rfl
    rw [hstep, ih, stepEvent_syncCompleteCount, List.countP_cons]
    by_cases hb : isBacklogComplete e
    · simp [hb]
      omega
    · simp [hb]

/-- Claim C2 (amended): across any session, the number of
`onInitialSyncComplete` invocations equals the number of processed frames
whose tag is `ChangeBacklogComplete`; in particular an invocation is
triggered only by a tag-2 frame, never by another frame type or by a local
edit, and it fires exactly once precisely in sessions that deliver exactly
one such frame. -/
theorem sync_complete_once_per_backlog_frame {Doc Change Actor : Type}
    [DecidableEq Actor] (E : Engine Doc Change Actor)
    (evs : List (Event Doc)) :
    (runSession E evs (initState E)).syncCompleteCount =
      evs.countP isBacklogComplete := by
  rw [runSession_syncCompleteCount]
  simp [initState]

/-- Counterexample to claim C2 as stated: the handler has no one-shot guard,
so a session that delivers two `ChangeBacklogComplete` frames invokes the
callback twice, not exactly once. -/
theorem sync_complete_twice_counterexample :
    (runSession toyEngine [Event.inbound [2], Event.inbound [2]]
      (initState toyEngine)).syncCompleteCount ≠ 1 := by
  decide

/-! ## Outbound framing -/

/-- Claim C3 (amended): on a local document-changed notification with a most
recent local change and a live `ConnectionHandle`, the bytes sent on the
channel are exactly the change's bytes, unmodified — no tag byte is
prepended. -/
theorem change_sent_raw {Doc Change Actor : Type}
    (E : Engine Doc Change Actor) (d : Doc) (c : List Nat)
    (h : E.getLastLocalChange d = some c) :
    onDocChange E (some ()) d = [c] := by
  simp [onDocChange, h]

/-- Witness for amended C3 at a concrete input: document 4's last local
change is the byte string [4], and exactly those bytes are sent. -/
theorem change_sent_raw_witness :
    onDocChange toyEngine (some ()) 4 = [[4]] :=
  change_sent_raw toyEngine 4 [4] rfl

/-- Counterexample to claim C3 as stated: the emitter calls
`ws.send(lastChange)` directly, so the bytes sent are not the tag-1 framed
encoding of the change. Concretely: the last local change of document 0 is
[0]; the channel receives [[0]], while the tag-1 frame would be [1, 0]. -/
theorem change_sent_raw_counterexample :
    toyEngine.getLastLocalChange 0 = some [0] ∧
    onDocChange toyEngine (some ()) 0 = [[0]] ∧
    encodeFrame MessageSyncTypeChange [0] = [1, 0] ∧
    onDocChange toyEngine (some ()) 0 ≠
      [encodeFrame MessageSyncTypeChange [0]] := by
  refine ⟨rfl, rfl, rfl, ?_⟩
  decide

/-! ## Teardown ordering -/

/-- Claim C9: the cleanup clears the `ConnectionHandle` strictly before it
closes the channel: after any non-empty prefix of the teardown sequence the
handle is already absent, after only the first operation the channel is still
in its prior open state, the channel is closed once the whole sequence ran,
and a send attempt interleaved at any point after teardown begins observes
the absent handle and sends nothing. -/
theorem teardown_clear_before_close {Doc Change Actor : Type}
    (E : Engine Doc Change Actor) (s : Session) (k : Nat) (d : Doc)
    (hk : 1 ≤ k) :
    (execTearOps (teardownOps.take k) s).wsRef = none ∧
    (execTearOps (teardownOps.take 1) s).channelOpen = s.channelOpen ∧
    (execTearOps teardownOps s).channelOpen = false ∧
    onDocChange E (execTearOps (teardownOps.take k) s).wsRef d = [] := by
  have hws : (execTearOps (teardownOps.take k) s).wsRef = none := by
    rcases k with _ | _ | n
    · omega
    · rfl
    · simp [teardownOps, execTearOps, execTearOp, List.take]
  refine ⟨hws, rfl, rfl, ?_⟩
  rw [hws]
  exact onDocChange_none E d

/-- Witness for C9 at a concrete input: a live session with an open channel,
observed right after the first teardown operation. -/
theorem teardown_clear_before_close_witness :
    (execTearOps (teardownOps.take 1) ⟨some (), true⟩).wsRef = none ∧
    (execTearOps (teardownOps.take 1) ⟨some (), true⟩).channelOpen = true ∧
    (execTearOps teardownOps ⟨some (), true⟩).channelOpen = false ∧
    onDocChange toyEngine
      (execTearOps (teardownOps.take 1) ⟨some (), true⟩).wsRef 0 = [] :=
  teardown_clear_before_close toyEngine ⟨some (), true⟩ 1 0 (by decide)
